import Mathlib

/-!
Shallow embedding of `src/tabbycat/api/views.py`: the pairing visibility gate
(`PairingViewSet.Permission`), the check-in endpoints (`BaseCheckinsView` and its
HTTP method handlers), and the standings projection (`BaseStandingsView`).
Collaborators that live outside this file's source (`api/mixins.py`,
`api/permissions.py`, `checkins/utils.py`, `checkins/consumers.py`,
`standings/base.py`, the checkins models) are modelled from the spec where a
claim depends on them; each such definition says so in its doc comment.
-/

/-! ### Pairing visibility (PairingViewSet.Permission) -/

/-- Draw-release state of a round (`Round.STATUS_*`). -/
inductive DrawStatus where
  | nothingYet
  | draft
  | confirmed
  | released
deriving DecidableEq, Repr

/-- The round fields the permission reads: its id and its draw status. -/
structure RoundM where
  id : Nat
  draw_status : DrawStatus
deriving DecidableEq, Repr

/-- The tournament-scoped release preference for a gated resource kind. -/
inductive ReleasePref where
  | off
  | current
  | allReleased
deriving DecidableEq, Repr

/-- The tournament fields the permission reads: the id of its current round and
the `public_draw` preference value. -/
structure TournamentM where
  current_round_id : Nat
  public_draw : ReleasePref
deriving DecidableEq, Repr

/-- `Permission.get_round_status`: whether `round.draw_status == Round.STATUS_RELEASED`
(for pairings, `round_released_field` is `draw_status` and `round_released_value`
is `STATUS_RELEASED`). -/
def get_round_status (r : RoundM) : Bool :=
  r.draw_status == DrawStatus.released

/-- `Permission.get_tournament_preference`: the dictionary lookup keyed by the
tournament's preference value — `off` maps to False, `current` to
`tournament.current_round.id == round.id and get_round_status(view)`,
`all-released` to `get_round_status(view)`. -/
def get_tournament_preference (t : TournamentM) (r : RoundM) : Bool :=
  match t.public_draw with
  | ReleasePref.off => false
  | ReleasePref.current => (t.current_round_id == r.id) && get_round_status r
  | ReleasePref.allReleased => get_round_status r

/-- Modelled from the spec: `PublicPreferencePermission` (api/permissions.py) is not
under src/. Per the spec, an administrator is granted access unconditionally; gating
only constrains non-administrative requesters, for whom the preference decision
`get_tournament_preference` applies. -/
def pairingVisible (isAdministrator : Bool) (t : TournamentM) (r : RoundM) : Bool :=
  isAdministrator || get_tournament_preference t r

/-! ### Check-in data model -/

/-- One record of the append-only check-in event log: the identifier's barcode it
refers to, the boolean state, and the timestamp. -/
structure CheckInEvent where
  barcode : String
  state : Bool
  time : Nat
deriving DecidableEq, Repr

/-- A checkable row (person or venue) of the tournament-scoped queryset. -/
structure Checkable where
  pk : Nat
deriving DecidableEq, Repr

/-- The persisted state the check-in endpoints read and write: the tournament's
checkable rows, the identifier table (checkable pk to barcode of its
`checkin_identifier`), and the append-only event log. -/
structure SysState where
  checkables : List Checkable
  identifiers : List (Nat × String)
  events : List CheckInEvent
deriving DecidableEq, Repr

/-- The distinct error outcomes a handler can produce: `Http404` / `NotFound`,
a permission denial, a Python `AttributeError` (a missing attribute dereference),
and `MultipleObjectsReturned` from `queryset.get()`. -/
inductive ApiError where
  | notFound
  | permissionDenied
  | attributeError
  | multipleObjectsReturned
deriving DecidableEq, Repr

/-- `get_response_dict`: an object reference (its pk, standing in for the URL),
the object's barcode, and the checked flag. -/
structure ResponseDict where
  objectPk : Nat
  barcode : String
  checked : Bool
deriving DecidableEq, Repr

/-- The payload `broadcast_checkin` hands to the consumer: the list of barcodes
and the new status. -/
structure BroadcastMsg where
  barcodes : List String
  status : Bool
deriving DecidableEq, Repr

/-- Lookup of the identifier table: the barcode attached to a checkable pk, if any. -/
def lookupBarcode (idents : List (Nat × String)) (pk : Nat) : Option String :=
  (idents.find? (fun p => p.1 == pk)).map (fun p => p.2)

/-- The two kinds of object the handlers pass to `broadcast_checkin`: `put` and
`delete` pass the checkable itself, `patch` passes `obj.checkin_identifier`. -/
inductive ApiObject where
  | checkable (c : Checkable)
  | ident (barcode : String)
deriving DecidableEq, Repr

/-- Attribute access `obj.checkin_identifier`. A Checkable owns at most one
Identifier (none before creation). Per the data model an Identifier holds only a
barcode and a back-reference to its Checkable, so an Identifier has no
`checkin_identifier` attribute of its own and the access fails there. -/
def checkin_identifier (st : SysState) : ApiObject → Option String
  | ApiObject.checkable c => lookupBarcode st.identifiers c.pk
  | ApiObject.ident _ => none

/-- `BaseCheckinsView.get_object_queryset`: the tournament-scoped queryset filtered
by the pk taken from the URL. -/
def get_object_queryset (st : SysState) (pk : Nat) : List Checkable :=
  st.checkables.filter (fun c => c.pk == pk)

/-- `BaseCheckinsView.get_object`: `get_object_or_404` over the filtered queryset,
then `Http404('No identifier')` when the object has no `checkin_identifier`.
Returns the object together with its barcode. -/
def get_object (st : SysState) (pk : Nat) : Except ApiError (Checkable × String) :=
  match get_object_queryset st pk with
  | [] => Except.error ApiError.notFound
  | c :: _ =>
    match lookupBarcode st.identifiers c.pk with
    | none => Except.error ApiError.notFound
    | some b => Except.ok (c, b)

/-! ### Check-in status derivation and broadcast (spec-modelled collaborators) -/

/-- The newest event of the log referring to the given barcode (the log is
append-only, so the last matching entry is the most recent). -/
def latestEvent (events : List CheckInEvent) (b : String) : Option CheckInEvent :=
  (events.filter (fun e => e.barcode == b)).getLast?

/-- Modelled from the spec: `checkins.utils.get_unexpired_checkins` and the check-in
event model (checkins/models.py) are not under src/. Per the spec's data model, the
current status of an identifier is the state of its most recent event if that
event's timestamp lies within the resource kind's freshness window of now, else
false; the views' composite `get_unexpired_checkins(tournament,
window_preference_pref).filter(identifier=i).exists()` is modelled as this
derivation. -/
def currentStatus (events : List CheckInEvent) (b : String) (window now : Nat) : Bool :=
  match latestEvent events b with
  | none => false
  | some e => if now - e.time ≤ window then e.state else false

/-- Modelled from the spec: `checkins.consumers.CheckInEventConsumer.receive_json`
and the real-time transport are not under src/. Per the spec, the registry appends
one event per barcode to the log (always succeeds, durably recorded), then the hub
publishes to the transport; dispatch is best-effort and a transport failure
(`transportFails`) is logged and discarded, never surfaced — it only loses the
delivered message, never the recorded events. Returns the new log and the list of
messages actually delivered. -/
def receive_json (events : List CheckInEvent) (msg : BroadcastMsg) (now : Nat)
    (transportFails : Bool) : List CheckInEvent × List BroadcastMsg :=
  (events ++ msg.barcodes.map (fun b => CheckInEvent.mk b msg.status now),
   if transportFails then [] else [msg])

/-- `BaseCheckinsView.get_barcodes`: `[obj.checkin_identifier.barcode]`; fails when
the object has no `checkin_identifier` attribute. -/
def get_barcodes (st : SysState) (obj : ApiObject) : Option (List String) :=
  (checkin_identifier st obj).map (fun b => [b])

/-- `BaseCheckinsView.broadcast_checkin`: builds the payload from
`get_barcodes(obj)` (dereferencing `obj.checkin_identifier`, which raises
`AttributeError` when absent) and hands it to the consumer's `receive_json`. -/
def broadcast_checkin (st : SysState) (obj : ApiObject) (check : Bool) (now : Nat)
    (transportFails : Bool) : Except ApiError (List CheckInEvent × List BroadcastMsg) :=
  match get_barcodes st obj with
  | none => Except.error ApiError.attributeError
  | some bs => Except.ok (receive_json st.events (BroadcastMsg.mk bs check) now transportFails)

/-! ### Check-in HTTP method handlers -/

/-- A handler outcome: an error, or the post-state, the messages delivered to the
transport, and the response body. -/
abbrev HandlerResult := Except ApiError (SysState × List BroadcastMsg × ResponseDict)

/-- `BaseCheckinsView.get`: looks the object up, derives its current status from
the unexpired events for its identifier, and answers without writing anything. -/
def checkin_get (st : SysState) (pk window now : Nat) : HandlerResult :=
  match get_object st pk with
  | Except.error e => Except.error e
  | Except.ok (c, b) =>
      Except.ok (st, [], ResponseDict.mk c.pk b (currentStatus st.events b window now))

/-- `BaseCheckinsView.put` (checks in): broadcasts status True for the object and
answers checked=True. -/
def checkin_put (st : SysState) (pk now : Nat) (transportFails : Bool) : HandlerResult :=
  match get_object st pk with
  | Except.error e => Except.error e
  | Except.ok (c, b) =>
      match broadcast_checkin st (ApiObject.checkable c) true now transportFails with
      | Except.error e => Except.error e
      | Except.ok (evs, msgs) =>
          Except.ok (SysState.mk st.checkables st.identifiers evs, msgs,
            ResponseDict.mk c.pk b true)

/-- `BaseCheckinsView.delete` (checks out): broadcasts status False for the object
and answers checked=False. -/
def checkin_delete (st : SysState) (pk now : Nat) (transportFails : Bool) : HandlerResult :=
  match get_object st pk with
  | Except.error e => Except.error e
  | Except.ok (c, b) =>
      match broadcast_checkin st (ApiObject.checkable c) false now transportFails with
      | Except.error e => Except.error e
      | Except.ok (evs, msgs) =>
          Except.ok (SysState.mk st.checkables st.identifiers evs, msgs,
            ResponseDict.mk c.pk b false)

/-- `BaseCheckinsView.patch` (toggles): reads the current status, then calls
`broadcast_checkin(obj.checkin_identifier, not check)` — passing the Identifier,
where `put` and `delete` pass the object itself — and would answer the negation. -/
def checkin_patch (st : SysState) (pk window now : Nat) (transportFails : Bool) :
    HandlerResult :=
  match get_object st pk with
  | Except.error e => Except.error e
  | Except.ok (c, b) =>
      let check := currentStatus st.events b window now
      match broadcast_checkin st (ApiObject.ident b) (!check) now transportFails with
      | Except.error e => Except.error e
      | Except.ok (evs, msgs) =>
          Except.ok (SysState.mk st.checkables st.identifiers evs, msgs,
            ResponseDict.mk c.pk b (!check))

/-- Modelled from the spec: `checkins.utils.create_identifiers` is not under src/.
Per the spec, for each member of the set lacking an identifier a fresh one is
generated (the large code space with collision retry is modelled by the `gen`
argument); members already identified are left untouched; it fails with NotFound
if the set is empty or references unknown entities. Returns the updated identifier
table. -/
def create_identifiers (idents : List (Nat × String)) (qset : List Checkable)
    (gen : Nat → String) : Except ApiError (List (Nat × String)) :=
  if qset.isEmpty then Except.error ApiError.notFound
  else Except.ok (idents ++
    (qset.filter (fun c => (lookupBarcode idents c.pk).isNone)).map
      (fun c => (c.pk, gen c.pk)))

/-- `BaseCheckinsView.post` (creates an identifier): runs `create_identifiers` on
the filtered queryset, then answers `queryset.get()` with checked=False. -/
def checkin_post (st : SysState) (pk : Nat) (gen : Nat → String) : HandlerResult :=
  let qset := get_object_queryset st pk
  match create_identifiers st.identifiers qset gen with
  | Except.error e => Except.error e
  | Except.ok idents =>
      match qset with
      | [] => Except.error ApiError.notFound
      | _ :: _ :: _ => Except.error ApiError.multipleObjectsReturned
      | [c] =>
          match lookupBarcode idents c.pk with
          | none => Except.error ApiError.attributeError
          | some b =>
              Except.ok (SysState.mk st.checkables idents st.events, [],
                ResponseDict.mk c.pk b false)

/-! ### Administrative gating of the check-in endpoints -/

/-- Modelled from the spec: `api.mixins.AdministratorAPIMixin` (api/mixins.py) is
not under src/. `BaseCheckinsView` mixes it in; per the spec's role model exposed
resources gated this way deny a non-administrative requester before the handler
runs, so every handler sits behind this guard. -/
def requireAdmin (isAdministrator : Bool) (k : HandlerResult) : HandlerResult :=
  if isAdministrator then k else Except.error ApiError.permissionDenied

/-- The Get-status endpoint as dispatched: permission check, then the handler. -/
def checkins_get_endpoint (isAdministrator : Bool) (st : SysState)
    (pk window now : Nat) : HandlerResult :=
  requireAdmin isAdministrator (checkin_get st pk window now)

/-- The CheckIn endpoint as dispatched: permission check, then the handler. -/
def checkins_put_endpoint (isAdministrator : Bool) (st : SysState) (pk now : Nat)
    (transportFails : Bool) : HandlerResult :=
  requireAdmin isAdministrator (checkin_put st pk now transportFails)

/-- The CheckOut endpoint as dispatched: permission check, then the handler. -/
def checkins_delete_endpoint (isAdministrator : Bool) (st : SysState) (pk now : Nat)
    (transportFails : Bool) : HandlerResult :=
  requireAdmin isAdministrator (checkin_delete st pk now transportFails)

/-- The Toggle endpoint as dispatched: permission check, then the handler. -/
def checkins_patch_endpoint (isAdministrator : Bool) (st : SysState)
    (pk window now : Nat) (transportFails : Bool) : HandlerResult :=
  requireAdmin isAdministrator (checkin_patch st pk window now transportFails)

/-- The CreateIdentifiers endpoint as dispatched: permission check, then the
handler. -/
def checkins_post_endpoint (isAdministrator : Bool) (st : SysState) (pk : Nat)
    (gen : Nat → String) : HandlerResult :=
  requireAdmin isAdministrator (checkin_post st pk gen)

/-- Forgets the delivered broadcast messages of a handler outcome, keeping the
post-state and the response the caller observes. -/
def dropMsgs (r : HandlerResult) : Except ApiError (SysState × ResponseDict) :=
  match r with
  | Except.error e => Except.error e
  | Except.ok (st, _, resp) => Except.ok (st, resp)

/-- The state after `n` further sequential Get calls with the same parameters
(an error leaves the state as it was). -/
def stateAfterGets : Nat → SysState → Nat → Nat → Nat → SysState
  | 0, st, _, _, _ => st
  | n + 1, st, pk, window, now =>
      match checkin_get st pk window now with
      | Except.ok (st', _, _) => stateAfterGets n st' pk window now
      | Except.error _ => stateAfterGets n st pk window now

/-! ### Standings projection -/

/-- A raw score record supplied by the score source: the entity's name (the
stable secondary key), its score, and its category memberships. -/
structure ScoreRecord where
  name : String
  score : Int
  categories : List Nat
deriving DecidableEq, Repr

/-- `BaseStandingsView.get_queryset`: the tournament's records, narrowed to a
category when the `category` query parameter is present. -/
def standings_queryset (records : List ScoreRecord) (category : Option Nat) :
    List ScoreRecord :=
  match category with
  | none => records
  | some cat => records.filter (fun r => r.categories.contains cat)

/-- The ranking order: score descending, ties broken by name ascending. -/
def standingsLE (a b : ScoreRecord) : Bool :=
  decide (b.score < a.score ∨ (a.score = b.score ∧ a.name ≤ b.name))

/-- Modelled from the spec: `standings.base.Standings` is not under src/. Per the
spec it produces an ordered sequence ranked by score descending, ties broken by
the stable secondary key (the name), from the filtered queryset. -/
def standings_get (records : List ScoreRecord) (category : Option Nat) :
    List ScoreRecord :=
  (standings_queryset records category).mergeSort standingsLE

/-! ### Helper lemmas -/

/-- When `get_object` succeeds, the returned barcode is the one the identifier
table attaches to the returned object. -/
theorem get_object_barcode_eq (st : SysState) (pk : Nat) (c : Checkable) (b : String)
    (h : get_object st pk = Except.ok (c, b)) :
    lookupBarcode st.identifiers c.pk = some b := by
  unfold get_object at h
  split at h
  · exact absurd h (by simp)
  · split at h
    · exact absurd h (by simp)
    · simp only [Except.ok.injEq, Prod.mk.injEq] at h
      obtain ⟨hc, hb⟩ := h
      subst hc; subst hb
      assumption

/-- Claim C1: the pairing visibility decision satisfies the AccessGate truth
table — an administrator is always granted; for non-administrators, pref=off
denies, pref=current grants exactly when the round is the tournament's current
round and its draw is released, and pref=all-released grants exactly when the
draw is released, regardless of current-ness. -/
theorem claim_C1_pairing_visibility_truth_table :
    (∀ t r, pairingVisible true t r = true)
    ∧ (∀ cid r, pairingVisible false (TournamentM.mk cid ReleasePref.off) r = false)
    ∧ (∀ cid rid ds,
        pairingVisible false (TournamentM.mk cid ReleasePref.current) (RoundM.mk rid ds)
          = ((cid == rid) && (ds == DrawStatus.released)))
    ∧ (∀ cid rid ds,
        pairingVisible false (TournamentM.mk cid ReleasePref.allReleased) (RoundM.mk rid ds)
          = (ds == DrawStatus.released)) := by
  refine ⟨?_, ?_, ?_, ?_⟩ <;> intros <;>
    simp [pairingVisible, get_tournament_preference, get_round_status]

/-- Claim C9: every check-in endpoint (Get, CheckIn, CheckOut, Toggle,
CreateIdentifiers) behind the administrative mixin denies a non-administrative
requester with no state read or changed — the outcome is the permission denial
alone, for any state and any arguments. -/
theorem claim_C9_checkins_admin_only :
    (∀ st pk window now, checkins_get_endpoint false st pk window now
      = Except.error ApiError.permissionDenied)
    ∧ (∀ st pk now tf, checkins_put_endpoint false st pk now tf
      = Except.error ApiError.permissionDenied)
    ∧ (∀ st pk now tf, checkins_delete_endpoint false st pk now tf
      = Except.error ApiError.permissionDenied)
    ∧ (∀ st pk window now tf, checkins_patch_endpoint false st pk window now tf
      = Except.error ApiError.permissionDenied)
    ∧ (∀ st pk gen, checkins_post_endpoint false st pk gen
      = Except.error ApiError.permissionDenied) := by
  refine ⟨?_, ?_, ?_, ?_, ?_⟩ <;> intros <;> rfl

/-- Claim C2: for the check-in write handlers, a failure of the dispatch to the
real-time transport never changes what the caller observes — the recorded event
log of `receive_json` and the post-state and response of CheckIn, CheckOut and
Toggle are identical whether the transport fails or not (CreateIdentifiers
performs no dispatch at all, so it has no transport argument to vary). -/
theorem claim_C2_broadcast_failure_contained :
    (∀ events msg now,
      (receive_json events msg now true).1 = (receive_json events msg now false).1)
    ∧ (∀ st pk now,
      dropMsgs (checkin_put st pk now true) = dropMsgs (checkin_put st pk now false))
    ∧ (∀ st pk now,
      dropMsgs (checkin_delete st pk now true) = dropMsgs (checkin_delete st pk now false))
    ∧ (∀ st pk window now,
      dropMsgs (checkin_patch st pk window now true)
        = dropMsgs (checkin_patch st pk window now false)) := by
  refine ⟨fun _ _ _ => rfl, ?_, ?_, ?_⟩
  · intro st pk now
    cases h : get_object st pk with
    | error e => simp [checkin_put, h, dropMsgs]
    | ok cb =>
      obtain ⟨c, b⟩ := cb
      cases hb : get_barcodes st (ApiObject.checkable c) with
      | none => simp [checkin_put, h, broadcast_checkin, hb, dropMsgs]
      | some bs => simp [checkin_put, h, broadcast_checkin, hb, receive_json, dropMsgs]
  · intro st pk now
    cases h : get_object st pk with
    | error e => simp [checkin_delete, h, dropMsgs]
    | ok cb =>
      obtain ⟨c, b⟩ := cb
      cases hb : get_barcodes st (ApiObject.checkable c) with
      | none => simp [checkin_delete, h, broadcast_checkin, hb, dropMsgs]
      | some bs => simp [checkin_delete, h, broadcast_checkin, hb, receive_json, dropMsgs]
  · intro st pk window now
    cases h : get_object st pk with
    | error e => simp [checkin_patch, h, dropMsgs]
    | ok cb =>
      obtain ⟨c, b⟩ := cb
      cases hb : get_barcodes st (ApiObject.ident b) with
      | none => simp [checkin_patch, h, broadcast_checkin, hb, dropMsgs]
      | some bs => simp [checkin_patch, h, broadcast_checkin, hb, receive_json, dropMsgs]

/-- Claim C3: a successful Get answers checked equal to the state of the most
recent event for the object's identifier when that event's timestamp lies within
the freshness window of now, and false otherwise; in particular a lone event with
state=true recorded at time T, queried at T + window + ε with ε > 0, yields
false. -/
theorem claim_C3_get_freshness_window (st : SysState) (pk window now : Nat)
    (st' : SysState) (msgs : List BroadcastMsg) (resp : ResponseDict)
    (b : String) (T ε : Nat)
    (h : checkin_get st pk window now = Except.ok (st', msgs, resp))
    (hε : 0 < ε) :
    (resp.checked =
      match latestEvent st.events resp.barcode with
      | none => false
      | some e => if now - e.time ≤ window then e.state else false)
    ∧ currentStatus [CheckInEvent.mk b true T] b window (T + window + ε) = false := by
  constructor
  · unfold checkin_get at h
    split at h
    · exact absurd h (by simp)
    · simp only [Except.ok.injEq, Prod.mk.injEq] at h
      obtain ⟨-, -, hr⟩ := h
      subst hr
      rfl
  · have hlt : ¬ (T + window + ε - T ≤ window) := by omega
    simp [currentStatus, latestEvent, hlt]

/-- Witness for claim C3 at a concrete state: checkable pk 1 with barcode "B1"
and a single event at time 5, window 3, queried at time 6. -/
theorem claim_C3_witness :
    (checkin_get (SysState.mk [Checkable.mk 1] [(1, "B1")] [CheckInEvent.mk "B1" true 5]) 1 3 6
      = Except.ok (SysState.mk [Checkable.mk 1] [(1, "B1")] [CheckInEvent.mk "B1" true 5],
          [], ResponseDict.mk 1 "B1" true))
    ∧ ((ResponseDict.mk 1 "B1" true).checked =
        match latestEvent [CheckInEvent.mk "B1" true 5] (ResponseDict.mk 1 "B1" true).barcode with
        | none => false
        | some e => if 6 - e.time ≤ 3 then e.state else false)
    ∧ currentStatus [CheckInEvent.mk "B2" true 10] "B2" 3 (10 + 3 + 1) = false :=
  ⟨rfl,
    claim_C3_get_freshness_window
      (SysState.mk [Checkable.mk 1] [(1, "B1")] [CheckInEvent.mk "B1" true 5]) 1 3 6
      (SysState.mk [Checkable.mk 1] [(1, "B1")] [CheckInEvent.mk "B1" true 5])
      [] (ResponseDict.mk 1 "B1" true) "B2" 10 1 rfl (by decide)⟩

/-- Claim C4 (code bug): the Toggle handler passes `obj.checkin_identifier` — the
Identifier, not the object itself — to `broadcast_checkin`, whose `get_barcodes`
dereferences `checkin_identifier` on it again; an Identifier has no such
attribute, so the toggle fails with AttributeError instead of recording and
returning the negated status. Evaluated at a concrete state: checkable pk 1 with
barcode "B1" and no prior events, toggled with window 3 at time 5. -/
theorem claim_C4_toggle_fails_attribute_error :
    checkin_patch (SysState.mk [Checkable.mk 1] [(1, "B1")] []) 1 3 5 false
      = Except.error ApiError.attributeError := rfl

/-- Claim C5: for every state whose object lookup succeeds, CheckIn records a
state=true event and answers checked=true, and CheckOut records a state=false
event and answers checked=false — the recorded state and the answer are fixed
regardless of the prior event log, and only the delivered message depends on the
transport. -/
theorem claim_C5_checkin_checkout_unconditional (st : SysState) (pk now : Nat)
    (tf : Bool) (c : Checkable) (b : String)
    (h : get_object st pk = Except.ok (c, b)) :
    checkin_put st pk now tf
      = Except.ok (SysState.mk st.checkables st.identifiers
          (st.events ++ [CheckInEvent.mk b true now]),
          (if tf then [] else [BroadcastMsg.mk [b] true]),
          ResponseDict.mk c.pk b true)
    ∧ checkin_delete st pk now tf
      = Except.ok (SysState.mk st.checkables st.identifiers
          (st.events ++ [CheckInEvent.mk b false now]),
          (if tf then [] else [BroadcastMsg.mk [b] false]),
          ResponseDict.mk c.pk b false) := by
  have hb := get_object_barcode_eq st pk c b h
  constructor <;>
    simp [checkin_put, checkin_delete, h, broadcast_checkin, get_barcodes,
      checkin_identifier, hb, receive_json]

/-- Witness for claim C5 at a concrete state: checkable pk 1 with barcode "B1"
and a prior state=true event, checked in and out at time 7 with a working
transport. -/
theorem claim_C5_witness :
    (get_object (SysState.mk [Checkable.mk 1] [(1, "B1")] [CheckInEvent.mk "B1" true 2]) 1
      = Except.ok (Checkable.mk 1, "B1"))
    ∧ (checkin_put (SysState.mk [Checkable.mk 1] [(1, "B1")] [CheckInEvent.mk "B1" true 2]) 1 7 false
        = Except.ok (SysState.mk [Checkable.mk 1] [(1, "B1")]
            [CheckInEvent.mk "B1" true 2, CheckInEvent.mk "B1" true 7],
            [BroadcastMsg.mk ["B1"] true], ResponseDict.mk 1 "B1" true)
      ∧ checkin_delete (SysState.mk [Checkable.mk 1] [(1, "B1")] [CheckInEvent.mk "B1" true 2]) 1 7 false
        = Except.ok (SysState.mk [Checkable.mk 1] [(1, "B1")]
            [CheckInEvent.mk "B1" true 2, CheckInEvent.mk "B1" false 7],
            [BroadcastMsg.mk ["B1"] false], ResponseDict.mk 1 "B1" false)) :=
  ⟨rfl,
    claim_C5_checkin_checkout_unconditional
      (SysState.mk [Checkable.mk 1] [(1, "B1")] [CheckInEvent.mk "B1" true 2]) 1 7 false
      (Checkable.mk 1) "B1" rfl⟩

/-- Claim C6: CreateIdentifiers fails with NotFound when the filtered checkable
set is empty — the pk references no entity in the tournament scope — and no
identifier is created, the outcome being the error alone. -/
theorem claim_C6_create_identifier_not_found (st : SysState) (pk : Nat)
    (gen : Nat → String) (h : get_object_queryset st pk = []) :
    checkin_post st pk gen = Except.error ApiError.notFound := by
  simp [checkin_post, h, create_identifiers]

/-- Witness for claim C6: a tournament holding only checkable pk 1, asked to
create an identifier for unknown pk 2. -/
theorem claim_C6_witness :
    (get_object_queryset (SysState.mk [Checkable.mk 1] [(1, "B1")] []) 2 = [])
    ∧ checkin_post (SysState.mk [Checkable.mk 1] [(1, "B1")] []) 2 (fun _ => "X")
      = Except.error ApiError.notFound :=
  ⟨rfl, claim_C6_create_identifier_not_found
    (SysState.mk [Checkable.mk 1] [(1, "B1")] []) 2 (fun _ => "X") rfl⟩

/-- Claim C7: for a checkable that already owns an identifier, CreateIdentifiers
is a no-op — the identifier table is returned unchanged and the response carries
the identical pre-existing barcode with checked=false. -/
theorem claim_C7_identifier_creation_idempotent (st : SysState) (pk : Nat)
    (gen : Nat → String) (c : Checkable) (b : String)
    (hq : get_object_queryset st pk = [c])
    (hb : lookupBarcode st.identifiers c.pk = some b) :
    checkin_post st pk gen = Except.ok (st, [], ResponseDict.mk c.pk b false) := by
  simp [checkin_post, hq, create_identifiers, hb]

/-- Witness for claim C7: checkable pk 1 already owning barcode "B1"; repeating
creation returns exactly that barcode and leaves the table unchanged. -/
theorem claim_C7_witness :
    (get_object_queryset (SysState.mk [Checkable.mk 1] [(1, "B1")] []) 1 = [Checkable.mk 1])
    ∧ (lookupBarcode [(1, "B1")] (Checkable.mk 1).pk = some "B1")
    ∧ checkin_post (SysState.mk [Checkable.mk 1] [(1, "B1")] []) 1 (fun _ => "X")
      = Except.ok (SysState.mk [Checkable.mk 1] [(1, "B1")] [], [],
          ResponseDict.mk 1 "B1" false) :=
  ⟨rfl, rfl,
    claim_C7_identifier_creation_idempotent
      (SysState.mk [Checkable.mk 1] [(1, "B1")] []) 1 (fun _ => "X")
      (Checkable.mk 1) "B1" rfl rfl⟩

/-- A successful Get leaves the state exactly as it was and delivers no
broadcast. -/
theorem checkin_get_state_frame (st : SysState) (pk window now : Nat)
    (st' : SysState) (msgs : List BroadcastMsg) (resp : ResponseDict)
    (h : checkin_get st pk window now = Except.ok (st', msgs, resp)) :
    st' = st ∧ msgs = [] := by
  unfold checkin_get at h
  split at h
  · exact absurd h (by simp)
  · simp only [Except.ok.injEq, Prod.mk.injEq] at h
    exact ⟨h.1.symm, h.2.1.symm⟩

/-- Any number of sequential Get calls leaves the state fixed. -/
theorem stateAfterGets_fixed (n : Nat) (st : SysState) (pk window now : Nat) :
    stateAfterGets n st pk window now = st := by
  induction n with
  | zero => rfl
  | succ n ih =>
    cases hok : checkin_get st pk window now with
    | ok r =>
      obtain ⟨st', msgs, resp⟩ := r
      have h2 := checkin_get_state_frame st pk window now st' msgs resp hok
      simp only [stateAfterGets, hok]
      rw [h2.1]
      exact ih
    | error e =>
      simp only [stateAfterGets, hok]
      exact ih

/-- Claim C10: Get is read-only — a successful Get returns the state unchanged
and triggers no broadcast, and any number of further Get calls leaves the event
log and identifier table, hence every derived status, exactly as they were. -/
theorem claim_C10_get_read_only (st : SysState) (pk window now : Nat)
    (st' : SysState) (msgs : List BroadcastMsg) (resp : ResponseDict) (n : Nat)
    (h : checkin_get st pk window now = Except.ok (st', msgs, resp)) :
    st' = st ∧ msgs = [] ∧ stateAfterGets n st pk window now = st :=
  ⟨(checkin_get_state_frame st pk window now st' msgs resp h).1,
   (checkin_get_state_frame st pk window now st' msgs resp h).2,
   stateAfterGets_fixed n st pk window now⟩

/-- Witness for claim C10 at a concrete state, iterating Get three times. -/
theorem claim_C10_witness :
    (checkin_get (SysState.mk [Checkable.mk 1] [(1, "B1")] []) 1 3 6
      = Except.ok (SysState.mk [Checkable.mk 1] [(1, "B1")] [], [],
          ResponseDict.mk 1 "B1" false))
    ∧ (SysState.mk [Checkable.mk 1] [(1, "B1")] [] = SysState.mk [Checkable.mk 1] [(1, "B1")] []
      ∧ ([] : List BroadcastMsg) = []
      ∧ stateAfterGets 3 (SysState.mk [Checkable.mk 1] [(1, "B1")] []) 1 3 6
          = SysState.mk [Checkable.mk 1] [(1, "B1")] []) :=
  ⟨rfl,
    claim_C10_get_read_only (SysState.mk [Checkable.mk 1] [(1, "B1")] []) 1 3 6
      (SysState.mk [Checkable.mk 1] [(1, "B1")] []) [] (ResponseDict.mk 1 "B1" false) 3 rfl⟩

/-- The ranking order is transitive. -/
theorem standingsLE_trans : ∀ (a b c : ScoreRecord),
    standingsLE a b → standingsLE b c → standingsLE a c := by
  intro a b c hab hbc
  simp only [standingsLE, decide_eq_true_eq] at hab hbc ⊢
  rcases hab with h₁ | ⟨h₁, h₂⟩ <;> rcases hbc with h₃ | ⟨h₃, h₄⟩
  · exact Or.inl (by omega)
  · exact Or.inl (by omega)
  · exact Or.inl (by omega)
  · exact Or.inr ⟨by omega, le_trans h₂ h₄⟩

/-- The ranking order is total. -/
theorem standingsLE_total : ∀ (a b : ScoreRecord),
    standingsLE a b || standingsLE b a := by
  intro a b
  simp only [standingsLE, Bool.or_eq_true, decide_eq_true_eq]
  rcases lt_trichotomy a.score b.score with h | h | h
  · exact Or.inr (Or.inl h)
  · rcases le_total a.name b.name with hn | hn
    · exact Or.inl (Or.inr ⟨h, hn⟩)
    · exact Or.inr (Or.inr ⟨h.symm, hn⟩)
  · exact Or.inl (Or.inl h)

/-- Claim C8: the standings projection is deterministic — identical raw score
records and identical category filter produce identical sequences — and what it
produces is the filtered records ordered by score descending with ties broken by
the stable secondary key, the name. -/
theorem claim_C8_standings_deterministic (r₁ r₂ : List ScoreRecord)
    (c₁ c₂ : Option Nat) (h₁ : r₁ = r₂) (h₂ : c₁ = c₂) :
    standings_get r₁ c₁ = standings_get r₂ c₂
    ∧ (standings_get r₁ c₁).Pairwise
        (fun a b => b.score < a.score ∨ (a.score = b.score ∧ a.name ≤ b.name))
    ∧ (standings_get r₁ c₁).Perm (standings_queryset r₁ c₁) := by
  subst h₁; subst h₂
  refine ⟨rfl, ?_, List.mergeSort_perm (standings_queryset r₁ c₁) standingsLE⟩
  have hs := List.sorted_mergeSort standingsLE_trans standingsLE_total
    (standings_queryset r₁ c₁)
  exact hs.imp fun h => of_decide_eq_true h

/-- Witness for claim C8 at a concrete input: two tied records sharing score 2. -/
theorem claim_C8_witness :
    ([ScoreRecord.mk "b" 2 [], ScoreRecord.mk "a" 2 []]
      = [ScoreRecord.mk "b" 2 [], ScoreRecord.mk "a" 2 []])
    ∧ ((none : Option Nat) = none)
    ∧ (standings_get [ScoreRecord.mk "b" 2 [], ScoreRecord.mk "a" 2 []] none
        = standings_get [ScoreRecord.mk "b" 2 [], ScoreRecord.mk "a" 2 []] none
      ∧ (standings_get [ScoreRecord.mk "b" 2 [], ScoreRecord.mk "a" 2 []] none).Pairwise
          (fun a b => b.score < a.score ∨ (a.score = b.score ∧ a.name ≤ b.name))
      ∧ (standings_get [ScoreRecord.mk "b" 2 [], ScoreRecord.mk "a" 2 []] none).Perm
          (standings_queryset [ScoreRecord.mk "b" 2 [], ScoreRecord.mk "a" 2 []] none)) :=
  ⟨rfl, rfl,
    claim_C8_standings_deterministic
      [ScoreRecord.mk "b" 2 [], ScoreRecord.mk "a" 2 []]
      [ScoreRecord.mk "b" 2 [], ScoreRecord.mk "a" 2 []] none none rfl rfl⟩
